import Mathlib

/-!
Verification of the `ftxvme-elf2eif` conversion pipeline
(`fortanix-vme/aws-nitro-enclaves/eif-tools/src/bin/ftxvme-elf2eif.rs`).

The pipeline validates its CLI inputs, creates an ephemeral docker build
directory (the Workspace), copies the input executable into it under the
fixed name `enclave`, writes a fixed Dockerfile manifest, invokes the
external Image Builder (`nitro_cli::build_from_docker`), tears the
workspace down, and reports the outcome.

The embedding models one process invocation as a pure function from an
oracle environment (filesystem answers, tempdir allocation, I/O step
outcomes, the builder's verdict) to a trace of observable events plus a
process exit code. Filesystem-touching collaborators that live outside the
sources at hand (the `eif_tools` validator helpers and
`nitro_cli::build_from_docker`) are modelled as oracle fields, per the
spec's contracts for them.
-/

namespace Elf2Eif

/-- Raw bytes of a file's content. -/
abbrev Bytes := List Nat

/-- Cryptographic measurements returned by the Image Builder: an
ordered collection of named digests, opaque to this pipeline. -/
abbrev Measurements := List (String × String)

/-- An error value from the external Image Builder, opaque to this
pipeline (its message is only displayed). -/
abbrev BuildError := String

/-- An operating-system path: either valid UTF-8 (backed by a `String`)
or a non-UTF-8 byte sequence. Mirrors `std::path::Path`, whose `to_str`
succeeds exactly on the UTF-8 case. -/
inductive OsStr where
  | utf8 (s : String)
  | nonUtf8 (b : List Nat)
deriving DecidableEq

/-- `Path::to_str`: `some` exactly when the path is valid UTF-8. -/
def OsStr.to_str : OsStr → Option String
  | .utf8 s => some s
  | .nonUtf8 _ => none

/-- The parsed CLI arguments of one invocation, after `clap` string
extraction in `main`: required input and output files, optional resource
path, optional signing certificate and private key. -/
structure Args where
  input_file : String
  output_file : String
  resource_path : Option String
  signing_certificate : Option String
  private_key : Option String

/-- Modelled from the spec: the `eif_tools` validator helpers
`readable_elf_file`, `is_directory` and `readable_file` are wired up as
`clap` `validator_os` callbacks in `main` but their bodies live in the
`eif_tools` library, outside the sources at hand. Per the spec they check,
respectively, that a path is a readable regular (ELF) file, that a path
exists and is a directory, and that a path is an existing readable file.
They are modelled as oracle predicates over path strings. -/
structure FsOracle where
  readable_elf_file : String → Bool
  is_directory : String → Bool
  readable_file : String → Bool

/-- The oracle environment for one invocation: the filesystem validator
answers, the file contents readable from disk, the outcome of each
filesystem step of `setup_docker_dir` (`TempDir::new`, `fs::copy`,
`File::create`, `writeln!`), the external builder's verdict, and whether
`TempDir::close` succeeds. `builder` is modelled from the spec contract
`build(resource_dir, tag, workspace_dir, output_path, cert?, key?) ->
(artifact_path, Measurements) | BuildError`; the pipeline treats it as
opaque. -/
structure Env where
  fs : FsOracle
  file_bytes : OsStr → Bytes
  tempdir : Option OsStr
  copy_ok : Bool
  create_file_ok : Bool
  write_ok : Bool
  builder : Except BuildError (String × Measurements)
  close_ok : Bool

/-- A file placed in the workspace: the copied executable payload, or a
text file (the Dockerfile manifest). -/
inductive WsFile where
  | payload (b : Bytes)
  | text (s : String)
deriving DecidableEq

/-- The ephemeral build directory: its path and its contents as an
association list from filename to file. -/
structure Workspace where
  dir : OsStr
  entries : List (String × WsFile)
deriving DecidableEq

/-- Observable events of one invocation: workspace directory creation and
teardown, the non-fatal cleanup-failure log, the call into the external
Image Builder with its exact arguments, and the user-facing outcome
reports. -/
inductive Event where
  | wsCreate (dir : OsStr)
  | wsTeardown (dir : OsStr)
  | cleanupWarning
  | builderCall (resource : String) (tag : String) (workspace : Option String)
      (output : String) (cert : Option String) (key : Option String)
  | reportSuccess (artifact : String) (m : Measurements)
  | reportFailure
deriving DecidableEq

/-- The `DOCKERFILE` string constant of `setup_docker_dir`, written into
the workspace manifest: empty base (`FROM scratch`), the copied executable
as the sole added file, and a run command executing it. -/
def DOCKERFILE : String :=
  "\n        FROM scratch\n        COPY enclave .\n        CMD [\"./enclave\"]\n    "

/-- The manifest as written on disk: `writeln!` appends a newline to the
`DOCKERFILE` template. -/
def MANIFEST : String := DOCKERFILE ++ "\n"

/-- The fixed system default for the resource directory. -/
def DEFAULT_RESOURCE_PATH : String := "/usr/share/nitro_enclaves/blobs/"

/-- `setup_docker_dir`: create a `TempDir`, copy the input executable into
it under the fixed name `enclave`, create the `Dockerfile` and write the
fixed template into it. Each step's `?` propagates failure; on a failure
after the directory was created, the `TempDir` value is dropped, which
removes the directory (a teardown). Returns the emitted events and either
the populated workspace or an error. -/
def setup_docker_dir (env : Env) (elf_path : OsStr) :
    List Event × Except Unit Workspace :=
  match env.tempdir with
  | none => ([], Except.error ())
  | some dir =>
    if env.copy_ok = false then
      ([Event.wsCreate dir, Event.wsTeardown dir], Except.error ())
    else if env.create_file_ok = false then
      ([Event.wsCreate dir, Event.wsTeardown dir], Except.error ())
    else if env.write_ok = false then
      ([Event.wsCreate dir, Event.wsTeardown dir], Except.error ())
    else
      ([Event.wsCreate dir],
       Except.ok
         { dir := dir
           entries := [("enclave", WsFile.payload (env.file_bytes elf_path)),
                       ("Dockerfile", WsFile.text MANIFEST)] })

/-- The result of one invocation: the observable event trace and the
process exit status. -/
structure RunResult where
  trace : List Event
  exit_code : Nat
deriving DecidableEq

/-- `run`: set up the docker directory (exit 1 on failure), convert its
path with `to_str` (silently `none` when not UTF-8), call
`build_from_docker` with the resource path, the fixed tag `elf2eif`, the
workspace path, the requested output path and the optional credentials;
on either builder outcome `close` the tempdir, downgrading a close failure
to a debug log; on builder success report the requested output path and
the returned measurements and finish with exit 0, on builder failure
report the error and exit 1. The builder's returned artifact is bound to
`_output_file` and discarded. -/
def run (env : Env) (input_path : OsStr) (output_path : String)
    (signing_certificate : Option String) (private_key : Option String)
    (resource_path : String) : RunResult :=
  match setup_docker_dir env input_path with
  | (tr, Except.error _) =>
      { trace := tr ++ [Event.reportFailure], exit_code := 1 }
  | (tr, Except.ok ws) =>
      let docker_dir_path := ws.dir.to_str
      let call := Event.builderCall resource_path "elf2eif" docker_dir_path
          output_path signing_certificate private_key
      let closeEvs : List Event :=
        if env.close_ok then [Event.wsTeardown ws.dir]
        else [Event.wsTeardown ws.dir, Event.cleanupWarning]
      match env.builder with
      | Except.ok (_output_file, measurements) =>
          { trace := tr ++ [call] ++ closeEvs
              ++ [Event.reportSuccess output_path measurements],
            exit_code := 0 }
      | Except.error _ =>
          { trace := tr ++ [call] ++ closeEvs ++ [Event.reportFailure],
            exit_code := 1 }

/-- The `clap` argument validation performed inside `get_matches`:
`readable_elf_file` on the required input file, `is_directory` on the
resource path only when one was supplied, `readable_file` on the signing
certificate and the private key, each only when supplied. A `validator_os`
runs only on a value that was actually provided. -/
def validate_args (fs : FsOracle) (a : Args) : Bool :=
  fs.readable_elf_file a.input_file
    && (match a.resource_path with
        | some r => fs.is_directory r
        | none => true)
    && (match a.signing_certificate with
        | some c => fs.readable_file c
        | none => true)
    && (match a.private_key with
        | some k => fs.readable_file k
        | none => true)

/-- The resource path `run` receives: the supplied one, or
`DEFAULT_RESOURCE_PATH` when none was supplied (`unwrap_or`). -/
def resourceUsed (a : Args) : String :=
  a.resource_path.getD DEFAULT_RESOURCE_PATH

/-- `main`: `get_matches` validates the supplied arguments and exits with
status 1 on any validation failure, before anything else happens; on
success `main` extracts the argument values, substitutes the default
resource path when none was supplied, and calls `run`. A normal return
from `run` and `main` is process exit 0. -/
def main (env : Env) (a : Args) : RunResult :=
  if validate_args env.fs a then
    run env (OsStr.utf8 a.input_file) a.output_file a.signing_certificate
      a.private_key (resourceUsed a)
  else
    { trace := [Event.reportFailure], exit_code := 1 }

/-- Recognizer for workspace-creation events. -/
def isCreate : Event → Bool
  | Event.wsCreate _ => true
  | _ => false

/-- Recognizer for workspace-teardown events. -/
def isTeardown : Event → Bool
  | Event.wsTeardown _ => true
  | _ => false

/-- Recognizer for builder-call events. -/
def isBuilderCall : Event → Bool
  | Event.builderCall _ _ _ _ _ _ => true
  | _ => false

/-- Recognizer for the user-facing outcome reports. -/
def isReport : Event → Bool
  | Event.reportSuccess _ _ => true
  | Event.reportFailure => true
  | _ => false

/-- Whether every step of `setup_docker_dir` succeeds in `env`. -/
def setupOk (env : Env) : Bool :=
  env.tempdir.isSome && env.copy_ok && env.create_file_ok && env.write_ok

/-- Whether the external builder succeeds in `env`. -/
def builderOk (env : Env) : Bool :=
  match env.builder with
  | Except.ok _ => true
  | Except.error _ => false

/-- Whether the whole pipeline of one invocation succeeds: validation,
workspace setup and the builder call all succeed. -/
def pipelineOk (env : Env) (a : Args) : Bool :=
  validate_args env.fs a && setupOk env && builderOk env

/-- Boolean test that `needle` occurs as a contiguous segment of `hay`. -/
def containsSeg (needle : List Char) : List Char → Bool
  | [] => needle.isEmpty
  | c :: t => needle.isPrefixOf (c :: t) || containsSeg needle t

/-- Filesystem oracle on which every validator check passes. -/
def fsAllOk : FsOracle :=
  { readable_elf_file := fun _ => true
    is_directory := fun _ => true
    readable_file := fun _ => true }

/-- Filesystem oracle on which no path passes the directory check. -/
def fsNoDir : FsOracle :=
  { readable_elf_file := fun _ => true
    is_directory := fun _ => false
    readable_file := fun _ => true }

/-- Filesystem oracle on which no path passes the readable-ELF check. -/
def fsBadInput : FsOracle :=
  { readable_elf_file := fun _ => false
    is_directory := fun _ => true
    readable_file := fun _ => true }

/-- A concrete workspace directory path. -/
def dir0 : OsStr := OsStr.utf8 "/tmp/elf2eif_docker_dir.x1"

/-- Another concrete workspace directory path. -/
def dir1 : OsStr := OsStr.utf8 "/tmp/elf2eif_docker_dir.x2"

/-- A concrete non-UTF-8 workspace directory path. -/
def dirNonUtf8 : OsStr := OsStr.nonUtf8 [255, 254]

/-- A concrete input-file path. -/
def path0 : OsStr := OsStr.utf8 "/home/u/app.elf"

/-- Another concrete input-file path. -/
def path1 : OsStr := OsStr.utf8 "/home/u/other.elf"

/-- Concrete input-executable bytes (an ELF magic). -/
def bytes0 : Bytes := [127, 69, 76, 70]

/-- Concrete measurements as the builder would return them. -/
def meas0 : Measurements := [("PCR0", "a0"), ("PCR1", "a1"), ("PCR2", "a2")]

/-- A fully successful environment. -/
def env0 : Env :=
  { fs := fsAllOk
    file_bytes := fun _ => bytes0
    tempdir := some dir0
    copy_ok := true
    create_file_ok := true
    write_ok := true
    builder := Except.ok ("out.eif", meas0)
    close_ok := true }

/-- A second successful environment, differing in input content and
workspace directory. -/
def env1 : Env :=
  { env0 with
    file_bytes := fun _ => [1, 2, 3]
    tempdir := some dir1 }

/-- A successful environment whose builder returns an artifact path
distinct from the invocation's requested output path. -/
def envArt : Env :=
  { env0 with builder := Except.ok ("builder-artifact.eif", meas0) }

/-- A successful environment over the no-directory filesystem oracle. -/
def envNoDir : Env := { env0 with fs := fsNoDir }

/-- An environment over the bad-input filesystem oracle. -/
def envBadInput : Env := { env0 with fs := fsBadInput }

/-- A successful environment whose allocated workspace directory path is
not valid UTF-8. -/
def envNonUtf8 : Env := { env0 with tempdir := some dirNonUtf8 }

/-- Concrete parsed arguments with a supplied resource path. -/
def args0 : Args :=
  { input_file := "/home/u/app.elf"
    output_file := "app.eif"
    resource_path := some "/res"
    signing_certificate := none
    private_key := none }

/-- Concrete parsed arguments with no resource path supplied. -/
def argsNoRes : Args := { args0 with resource_path := none }

/-- Concrete parsed arguments supplying a resource path that fails the
directory check on the no-directory oracle. -/
def argsBadRes : Args := { args0 with resource_path := some "/notadir" }

/-- The workspace produced by a successful setup in `env0`. -/
def wsA : Workspace :=
  { dir := dir0
    entries := [("enclave", WsFile.payload bytes0),
                ("Dockerfile", WsFile.text MANIFEST)] }

/-- The workspace produced by a successful setup in `env1`. -/
def wsB : Workspace :=
  { dir := dir1
    entries := [("enclave", WsFile.payload [1, 2, 3]),
                ("Dockerfile", WsFile.text MANIFEST)] }

/-- Any successful `setup_docker_dir` places the fixed manifest under the
name `Dockerfile`. -/
theorem setup_ok_manifest (env : Env) (p : OsStr) (w : Workspace)
    (h : (setup_docker_dir env p).2 = Except.ok w) :
    w.entries.lookup "Dockerfile" = some (WsFile.text MANIFEST) := by
  obtain ⟨fs, fb, td, cp, cr, wr, bu, cl⟩ := env
  rcases td with _ | d <;>
    rcases cp with _ | _ <;> rcases cr with _ | _ <;> rcases wr with _ | _ <;>
    simp [setup_docker_dir] at h <;> subst h <;> rfl

/-- C1: for every invocation in which workspace creation succeeds (a
creation event occurs), workspace teardown is invoked exactly once on
every subsequent code path — including when populating the workspace or
the builder invocation fails. -/
theorem teardown_exactly_once (env : Env) (a : Args) (d : OsStr)
    (h : Event.wsCreate d ∈ (main env a).trace) :
    (main env a).trace.countP isTeardown = 1 := by
  obtain ⟨fs, fb, td, cp, cr, wr, bu, cl⟩ := env
  cases hv : validate_args fs a
  · simp [main, hv] at h
  · rcases td with _ | d2
    · simp [main, hv, run, setup_docker_dir] at h
    · rcases cp with _ | _ <;> rcases cr with _ | _ <;> rcases wr with _ | _ <;>
        rcases bu with e | om <;> rcases cl with _ | _ <;>
        simp [main, hv, run, setup_docker_dir, isTeardown,
          List.countP_cons, List.countP_nil]

/-- Witness for C1 at a concrete fully successful invocation. -/
theorem teardown_exactly_once_witness :
    Event.wsCreate dir0 ∈ (main env0 args0).trace ∧
    (main env0 args0).trace.countP isTeardown = 1 :=
  ⟨by decide, teardown_exactly_once env0 args0 dir0 (by decide)⟩

/-- C5: for every invocation in which workspace creation and population
succeed, the workspace contains exactly two entries — the copied input
executable under the fixed name `enclave` and the `Dockerfile` manifest —
and the manifest declares the empty base `FROM scratch`, adds the
executable as the sole file, and its run command references the fixed
payload filename. -/
theorem workspace_shape (env : Env) (p : OsStr) (d : OsStr)
    (h1 : env.tempdir = some d) (h2 : env.copy_ok = true)
    (h3 : env.create_file_ok = true) (h4 : env.write_ok = true) :
    (setup_docker_dir env p).2 =
      Except.ok
        { dir := d
          entries := [("enclave", WsFile.payload (env.file_bytes p)),
                      ("Dockerfile", WsFile.text MANIFEST)] } ∧
    containsSeg ("FROM scratch").data MANIFEST.data = true ∧
    containsSeg ("COPY enclave .").data MANIFEST.data = true ∧
    containsSeg ("CMD [\"./enclave\"]").data MANIFEST.data = true := by
  refine ⟨?_, by decide, by decide, by decide⟩
  simp [setup_docker_dir, h1, h2, h3, h4]

/-- Witness for C5 at a concrete fully successful invocation. -/
theorem workspace_shape_witness :
    env0.tempdir = some dir0 ∧ env0.copy_ok = true ∧
    env0.create_file_ok = true ∧ env0.write_ok = true ∧
    ((setup_docker_dir env0 path0).2 =
      Except.ok
        { dir := dir0
          entries := [("enclave", WsFile.payload (env0.file_bytes path0)),
                      ("Dockerfile", WsFile.text MANIFEST)] } ∧
     containsSeg ("FROM scratch").data MANIFEST.data = true ∧
     containsSeg ("COPY enclave .").data MANIFEST.data = true ∧
     containsSeg ("CMD [\"./enclave\"]").data MANIFEST.data = true) :=
  ⟨rfl, rfl, rfl, rfl, workspace_shape env0 path0 dir0 rfl rfl rfl rfl⟩

/-- C9: for any two invocations, whatever their inputs, the manifest
written into the workspace is byte-for-byte identical — the fixed
template with no input-dependent content. -/
theorem manifest_invocation_independent (e1 e2 : Env) (p1 p2 : OsStr)
    (w1 w2 : Workspace)
    (h1 : (setup_docker_dir e1 p1).2 = Except.ok w1)
    (h2 : (setup_docker_dir e2 p2).2 = Except.ok w2) :
    w1.entries.lookup "Dockerfile" = some (WsFile.text MANIFEST) ∧
    w2.entries.lookup "Dockerfile" = some (WsFile.text MANIFEST) ∧
    w1.entries.lookup "Dockerfile" = w2.entries.lookup "Dockerfile" := by
  have m1 := setup_ok_manifest e1 p1 w1 h1
  have m2 := setup_ok_manifest e2 p2 w2 h2
  exact ⟨m1, m2, m1.trans m2.symm⟩

/-- Witness for C9 at two concrete invocations with different inputs and
directories. -/
theorem manifest_invocation_independent_witness :
    (setup_docker_dir env0 path0).2 = Except.ok wsA ∧
    (setup_docker_dir env1 path1).2 = Except.ok wsB ∧
    (wsA.entries.lookup "Dockerfile" = some (WsFile.text MANIFEST) ∧
     wsB.entries.lookup "Dockerfile" = some (WsFile.text MANIFEST) ∧
     wsA.entries.lookup "Dockerfile" = wsB.entries.lookup "Dockerfile") :=
  ⟨rfl, rfl,
   manifest_invocation_independent env0 env1 path0 path1 wsA wsB rfl rfl⟩

/-- C2, counterexample: the builder returns the artifact
`builder-artifact.eif`, the invocation requests `requested-output.eif`,
succeeds, and the success report names the requested path, not the
returned artifact — so the reported artifact path is not the one the
collaborator returned. -/
theorem builder_artifact_not_relayed :
    envArt.builder = Except.ok ("builder-artifact.eif", meas0) ∧
    (run envArt path0 "requested-output.eif" none none "/res").exit_code = 0 ∧
    Event.reportSuccess "builder-artifact.eif" meas0 ∉
      (run envArt path0 "requested-output.eif" none none "/res").trace ∧
    Event.reportSuccess "requested-output.eif" meas0 ∈
      (run envArt path0 "requested-output.eif" none none "/res").trace := by
  refine ⟨rfl, rfl, by decide, by decide⟩

/-- C2 as amended: on a successful builder call, the Measurements
reported equal exactly what the collaborator returned, and the artifact
path reported is the user-requested output path; the collaborator's
returned artifact value is discarded. -/
theorem report_uses_requested_output_path (env : Env) (p : OsStr)
    (o : String) (c k : Option String) (r art : String) (m : Measurements)
    (hb : env.builder = Except.ok (art, m))
    (h1 : env.tempdir.isSome = true) (h2 : env.copy_ok = true)
    (h3 : env.create_file_ok = true) (h4 : env.write_ok = true) :
    Event.reportSuccess o m ∈ (run env p o c k r).trace ∧
    (run env p o c k r).exit_code = 0 := by
  obtain ⟨fs, fb, td, cp, cr, wr, bu, cl⟩ := env
  rcases td with _ | d
  · simp at h1
  · subst h2 h3 h4
    simp only at hb
    subst hb
    rcases cl with _ | _ <;> simp [run, setup_docker_dir]

/-- Witness for the amended C2 at a concrete successful invocation. -/
theorem report_uses_requested_output_path_witness :
    env0.builder = Except.ok ("out.eif", meas0) ∧
    env0.tempdir.isSome = true ∧ env0.copy_ok = true ∧
    env0.create_file_ok = true ∧ env0.write_ok = true ∧
    (Event.reportSuccess "app.eif" meas0 ∈
       (run env0 path0 "app.eif" none none "/res").trace ∧
     (run env0 path0 "app.eif" none none "/res").exit_code = 0) :=
  ⟨rfl, rfl, rfl, rfl, rfl,
   report_uses_requested_output_path env0 path0 "app.eif" none none "/res"
     "out.eif" meas0 rfl rfl rfl rfl rfl⟩

/-- C3, counterexample: with no resource-path argument supplied, the
fixed default resource path is used even though it fails the directory
check — the invocation does not return a validation error, a workspace is
created, and the run still exits 0. The default path is never checked. -/
theorem default_resource_path_unchecked :
    envNoDir.fs.is_directory DEFAULT_RESOURCE_PATH = false ∧
    argsNoRes.resource_path = none ∧
    resourceUsed argsNoRes = DEFAULT_RESOURCE_PATH ∧
    (main envNoDir argsNoRes).exit_code = 0 ∧
    Event.wsCreate dir0 ∈ (main envNoDir argsNoRes).trace := by
  refine ⟨rfl, rfl, rfl, rfl, by decide⟩

/-- C3 as amended: when a resource-path argument is supplied, it is
checked to be a directory before any workspace is created, and a failed
check yields a validation error (exit status 1) with no workspace ever
created; when no resource-path argument is supplied, the fixed default is
used without being checked. -/
theorem supplied_resource_path_checked (env : Env) (a : Args) (r : String)
    (hs : a.resource_path = some r)
    (hd : env.fs.is_directory r = false) :
    (main env a).exit_code = 1 ∧
    (main env a).trace.countP isCreate = 0 := by
  have hv : validate_args env.fs a = false := by
    simp [validate_args, hs, hd]
  simp [main, hv, isCreate, List.countP_cons, List.countP_nil]

/-- Witness for the amended C3 at a concrete invocation supplying a
non-directory resource path. -/
theorem supplied_resource_path_checked_witness :
    argsBadRes.resource_path = some "/notadir" ∧
    envNoDir.fs.is_directory "/notadir" = false ∧
    ((main envNoDir argsBadRes).exit_code = 1 ∧
     (main envNoDir argsBadRes).trace.countP isCreate = 0) :=
  ⟨rfl, rfl, supplied_resource_path_checked envNoDir argsBadRes "/notadir" rfl rfl⟩

/-- C4: a workspace-teardown failure never changes the invocation's
outcome: the exit code and the user-facing outcome reports are identical
whatever `close` returns — the failure is only logged. -/
theorem cleanup_failure_never_changes_outcome (env : Env) (a : Args)
    (b1 b2 : Bool) :
    (main { env with close_ok := b1 } a).exit_code
      = (main { env with close_ok := b2 } a).exit_code ∧
    (main { env with close_ok := b1 } a).trace.filter isReport
      = (main { env with close_ok := b2 } a).trace.filter isReport := by
  obtain ⟨fs, fb, td, cp, cr, wr, bu, cl⟩ := env
  cases hv : validate_args fs a
  · simp [main, hv]
  · rcases td with _ | d <;> rcases cp with _ | _ <;> rcases cr with _ | _ <;>
      rcases wr with _ | _ <;> rcases bu with e | om <;>
      rcases b1 with _ | _ <;> rcases b2 with _ | _ <;>
      simp [main, hv, run, setup_docker_dir, isReport]

/-- C6: input validation strictly precedes any filesystem mutation — when
the input path fails the readable-ELF-file check, the invocation exits
with status 1 and no workspace is ever created. -/
theorem invalid_input_no_workspace (env : Env) (a : Args)
    (h : env.fs.readable_elf_file a.input_file = false) :
    (main env a).exit_code = 1 ∧
    (main env a).trace.countP isCreate = 0 := by
  have hv : validate_args env.fs a = false := by
    simp [validate_args, h]
  simp [main, hv, isCreate, List.countP_cons, List.countP_nil]

/-- Witness for C6 at a concrete invocation with an invalid input file. -/
theorem invalid_input_no_workspace_witness :
    envBadInput.fs.readable_elf_file args0.input_file = false ∧
    ((main envBadInput args0).exit_code = 1 ∧
     (main envBadInput args0).trace.countP isCreate = 0) :=
  ⟨rfl, invalid_input_no_workspace envBadInput args0 rfl⟩

/-- C7: the process exits with status 0 exactly when validation,
workspace setup and the builder call all succeed, and with status 1 on
any validation, workspace or builder failure (the exit status is always
0 or 1). -/
theorem exit_code_reflects_pipeline (env : Env) (a : Args) :
    ((main env a).exit_code = 0 ↔ pipelineOk env a = true) ∧
    ((main env a).exit_code = 0 ∨ (main env a).exit_code = 1) := by
  obtain ⟨fs, fb, td, cp, cr, wr, bu, cl⟩ := env
  cases hv : validate_args fs a
  · simp [main, hv, pipelineOk]
  · rcases td with _ | d <;> rcases cp with _ | _ <;> rcases cr with _ | _ <;>
      rcases wr with _ | _ <;> rcases bu with e | om <;> rcases cl with _ | _ <;>
      simp [main, hv, run, setup_docker_dir, pipelineOk, setupOk, builderOk]

/-- C8: every invocation that reaches the builder step calls the external
Image Builder exactly once, with exactly the resource directory in use,
the fixed tag `elf2eif`, the workspace path, the user-requested output
path, and the optional signing certificate and private key forwarded
unchanged. -/
theorem builder_invoked_with_exact_arguments (env : Env) (a : Args)
    (d : OsStr)
    (hv : validate_args env.fs a = true) (h1 : env.tempdir = some d)
    (h2 : env.copy_ok = true) (h3 : env.create_file_ok = true)
    (h4 : env.write_ok = true) :
    Event.builderCall (resourceUsed a) "elf2eif" d.to_str a.output_file
        a.signing_certificate a.private_key ∈ (main env a).trace ∧
    (main env a).trace.countP isBuilderCall = 1 := by
  obtain ⟨fs, fb, td, cp, cr, wr, bu, cl⟩ := env
  simp only at hv h1 h2 h3 h4
  subst h1 h2 h3 h4
  rcases bu with e | om <;> rcases cl with _ | _ <;>
    simp [main, hv, run, setup_docker_dir, isBuilderCall,
      List.countP_cons, List.countP_nil]

/-- Witness for C8 at a concrete fully successful invocation. -/
theorem builder_invoked_with_exact_arguments_witness :
    validate_args env0.fs args0 = true ∧ env0.tempdir = some dir0 ∧
    env0.copy_ok = true ∧ env0.create_file_ok = true ∧
    env0.write_ok = true ∧
    (Event.builderCall (resourceUsed args0) "elf2eif" dir0.to_str
        args0.output_file args0.signing_certificate args0.private_key ∈
          (main env0 args0).trace ∧
     (main env0 args0).trace.countP isBuilderCall = 1) :=
  ⟨rfl, rfl, rfl, rfl, rfl,
   builder_invoked_with_exact_arguments env0 args0 dir0 rfl rfl rfl rfl rfl⟩

/-- C10: when the allocated workspace directory path is not valid UTF-8,
the pipeline does not fail at that point: the builder is still called,
with `none` as the workspace path, and the exit status is determined
solely by the builder's outcome. -/
theorem non_utf8_workspace_path_is_none (env : Env) (p : OsStr)
    (o : String) (c k : Option String) (r : String) (bs : List Nat)
    (h1 : env.tempdir = some (OsStr.nonUtf8 bs))
    (h2 : env.copy_ok = true) (h3 : env.create_file_ok = true)
    (h4 : env.write_ok = true) :
    Event.builderCall r "elf2eif" none o c k ∈ (run env p o c k r).trace ∧
    (run env p o c k r).exit_code = (if builderOk env then 0 else 1) := by
  obtain ⟨fs, fb, td, cp, cr, wr, bu, cl⟩ := env
  simp only at h1 h2 h3 h4
  subst h1 h2 h3 h4
  rcases bu with e | om <;> rcases cl with _ | _ <;>
    simp [run, setup_docker_dir, builderOk, OsStr.to_str]

/-- Witness for C10 at a concrete invocation whose workspace directory
path is non-UTF-8. -/
theorem non_utf8_workspace_path_is_none_witness :
    envNonUtf8.tempdir = some (OsStr.nonUtf8 [255, 254]) ∧
    envNonUtf8.copy_ok = true ∧ envNonUtf8.create_file_ok = true ∧
    envNonUtf8.write_ok = true ∧
    (Event.builderCall "/res" "elf2eif" none "app.eif" none none ∈
       (run envNonUtf8 path0 "app.eif" none none "/res").trace ∧
     (run envNonUtf8 path0 "app.eif" none none "/res").exit_code =
       (if builderOk envNonUtf8 then 0 else 1)) :=
  ⟨rfl, rfl, rfl, rfl,
   non_utf8_workspace_path_is_none envNonUtf8 path0 "app.eif" none none
     "/res" [255, 254] rfl rfl rfl rfl⟩

end Elf2Eif
